import Mathlib

/-!
Verification of the lead-filtering and transformation core of the
b2b-lead-automation pipeline.

The development shallowly embeds the pure decision logic of the repository:

* `filter_duplicates` and `filter_cooldown` from `src/millemail_pipeline.py`
* `EmailEnricher.get_company_size`, `EmailEnricher.is_b2c_company` and
  `EmailEnricher.verify_email` from `src/agents/email_enricher.py`
* `LinkedInProfileScraper.is_big_corporate` from
  `src/agents/linkedin_profile_scraper.py`
* `CampaignManager._transform_lead` from `src/agents/campaign_manager.py`
* the per-lead enrichment step of `main` in `src/millemail_pipeline.py`

External collaborators (Hunter, Claude, Apify, Supabase) are modelled as
oracle values passed to the embedded functions: each embedded function takes
the collaborator reply that the Python code would have received, and computes
exactly what the Python code computes from it.

Machine representation choices:

* A Python string field that may be missing or `None` is `Option String`;
  Python truthiness on such a value is `pyTruthy`.
* Instants are integers (seconds); `timedelta(days=c)` is `c * 86400` seconds.
* A `datetime` value is `PyDateTime`: `aware` carries a timezone, `naive`
  does not.  Comparing a naive value with an aware one raises `TypeError`
  in Python, so the embedded comparison returns `Except`.
* An ISO-8601 timestamp string is `IsoTimestamp`: it either carries an
  explicit UTC offset, a trailing literal Z designator, or no timezone
  designator at all (naive).  `String.replace "Z" "+00:00"` acts on these
  as `replaceZ`.
-/

/-- Python truthiness of a string-valued field that may be missing or null:
`None` and the empty string are falsy, every other string is truthy. -/
def pyTruthy : Option String → Bool
  | none => false
  | some s => !(s == "")

/-! ## String helpers (Python `str.lower`, `str.upper`, `str.strip`, `in`) -/

/-- Python `str.lower` on one character, for the ASCII range and the
Latin-1 uppercase letters (the only characters the repository's data uses). -/
def pyLowerChar (c : Char) : Char :=
  if 65 ≤ c.toNat && c.toNat ≤ 90 then Char.ofNat (c.toNat + 32)
  else if 192 ≤ c.toNat && c.toNat ≤ 222 && c.toNat != 215 then Char.ofNat (c.toNat + 32)
  else c

/-- Python `str.upper` on one character, for the ASCII range and the
Latin-1 lowercase letters. -/
def pyUpperChar (c : Char) : Char :=
  if 97 ≤ c.toNat && c.toNat ≤ 122 then Char.ofNat (c.toNat - 32)
  else if 224 ≤ c.toNat && c.toNat ≤ 254 && c.toNat != 247 then Char.ofNat (c.toNat - 32)
  else c

/-- Python `str.lower`. -/
def pyLower (s : String) : String := ⟨s.data.map pyLowerChar⟩

/-- Python `str.upper`. -/
def pyUpper (s : String) : String := ⟨s.data.map pyUpperChar⟩

/-- The characters Python `str.strip` removes. -/
def isPyWhitespace (c : Char) : Bool :=
  c == ' ' || c == '\t' || c == '\n' || c == '\r' || c == '\x0b' || c == '\x0c'

/-- Python `str.strip`: drop whitespace at both ends. -/
def pyStrip (s : String) : String :=
  ⟨((s.data.dropWhile isPyWhitespace).reverse.dropWhile isPyWhitespace).reverse⟩

/-- `needle` starts `hay`. -/
def isPrefixL : List Char → List Char → Bool
  | [], _ => true
  | _ :: _, [] => false
  | a :: as, b :: bs => a == b && isPrefixL as bs

/-- `needle` occurs contiguously in `hay`. -/
def containsSub (needle : List Char) : List Char → Bool
  | [] => needle.isEmpty
  | c :: rest => isPrefixL needle (c :: rest) || containsSub needle rest

/-- The Python expression `needle in hay` on strings: substring containment. -/
def pyInStr (needle hay : String) : Bool :=
  containsSub needle.data hay.data

/-! ## The Lead record

A pipeline lead is a Python dict; the embedding keeps the fields the
verified functions read or write.  `none` models a missing key or a stored
null. -/

structure Lead where
  company_name : Option String := none
  company_domain : Option String := none
  email : Option String := none
  first_name : Option String := none
  last_name : Option String := none
  title : Option String := none
  company_type : Option String := none
  verification_status : Option String := none
  verification_score : Option Int := none
  subject_line : Option String := none
  email_1 : Option String := none
  email_1_ps : Option String := none
  email_2 : Option String := none
  email_3 : Option String := none
deriving Repr, DecidableEq

/-! ## filter_duplicates  (src/millemail_pipeline.py lines 47-70) -/

/-- The drop condition of `filter_duplicates`:
`company_domain and email and (company_domain, email) in existing_contacts`. -/
def isDuplicate (existing_contacts : List (String × String)) (p : Lead) : Bool :=
  pyTruthy p.company_domain && pyTruthy p.email &&
    existing_contacts.contains (p.company_domain.getD "", p.email.getD "")

/-- `filter_duplicates(profiles, existing_contacts)`: keep, in order, the
profiles whose (domain, email) identity pair is not already known. -/
def filter_duplicates (profiles : List Lead)
    (existing_contacts : List (String × String)) : List Lead :=
  profiles.filter (fun p => !(isDuplicate existing_contacts p))

/-- The identity pair of a lead, when both halves are present and non-empty —
the same pairs `MilleMailSupabaseClient.get_existing_contacts` collects
(`if row.get("company_domain") and row.get("email")`). -/
def identityPair (p : Lead) : Option (String × String) :=
  if pyTruthy p.company_domain && pyTruthy p.email then
    some (p.company_domain.getD "", p.email.getD "")
  else none

/-- The identity pairs of a batch of leads. -/
def identityPairs (ps : List Lead) : List (String × String) :=
  ps.filterMap identityPair

/-! ## filter_cooldown  (src/millemail_pipeline.py lines 73-112) -/

/-- An ISO-8601 timestamp string, abstracted to the instant it denotes
(seconds) and the timezone designator it carries: an explicit UTC offset,
a trailing literal Z, or none at all (a naive timestamp). -/
inductive IsoTimestamp where
  | utcOffset (t : Int)
  | zSuffix (t : Int)
  | naive (t : Int)
deriving Repr, DecidableEq

/-- A Python `datetime` value: timezone-aware (an instant, seconds) or
naive. -/
inductive PyDateTime where
  | aware (t : Int)
  | naive (t : Int)
deriving Repr, DecidableEq

/-- `last_contact.replace("Z", "+00:00")`: a trailing-Z timestamp becomes an
explicit-UTC-offset timestamp for the same instant; the other forms contain
no Z and are unchanged. -/
def replaceZ : IsoTimestamp → IsoTimestamp
  | .zSuffix t => .utcOffset t
  | s => s

/-- `datetime.fromisoformat`: a string with an explicit offset parses to an
aware datetime, a string with no designator parses to a naive datetime, and
a raw trailing-Z string raises ValueError (Python < 3.11; the pipeline never
reaches this case because it replaces Z first, and on Python >= 3.11 the
case would parse to the same aware value, which only strengthens the
theorems below). -/
def fromisoformat : IsoTimestamp → Except String PyDateTime
  | .utcOffset t => .ok (.aware t)
  | .naive t => .ok (.naive t)
  | .zSuffix _ => .error "ValueError: invalid isoformat string"

/-- The parse the loop body performs:
`datetime.fromisoformat(last_contact.replace("Z", "+00:00"))`. -/
def parse_last_contact (s : IsoTimestamp) : Except String PyDateTime :=
  fromisoformat (replaceZ s)

/-- `last_contact_dt > cooldown_threshold` where the threshold is aware:
comparing instants when `last_contact_dt` is aware, raising TypeError when
it is naive. -/
def pyGtAware : PyDateTime → Int → Except String Bool
  | .aware t, u => .ok (decide (t > u))
  | .naive _, _ =>
      .error "TypeError: cannot compare offset-naive and offset-aware datetimes"

/-- `timedelta(days=1)` in seconds. -/
def secondsPerDay : Int := 86400

/-- `filter_cooldown(profiles, last_contact_dates, cooldown_days)` evaluated
at the aware instant `now` (`datetime.now(timezone.utc)`).  The threshold is
`now - timedelta(days=cooldown_days)`; a profile with a truthy domain whose
last-contact timestamp parses strictly above the threshold is dropped; an
uncaught ValueError or TypeError aborts the whole call. -/
def filter_cooldown : List Lead → (String → Option IsoTimestamp) → Int → Int →
    Except String (List Lead)
  | [], _, _, _ => .ok []
  | p :: rest, last_contact_dates, cooldown_days, now =>
    if pyTruthy p.company_domain = false then
      (filter_cooldown rest last_contact_dates cooldown_days now).map (p :: ·)
    else
      match last_contact_dates (p.company_domain.getD "") with
      | none => (filter_cooldown rest last_contact_dates cooldown_days now).map (p :: ·)
      | some last_contact =>
        match parse_last_contact last_contact with
        | .error e => .error e
        | .ok last_contact_dt =>
          match pyGtAware last_contact_dt (now - cooldown_days * secondsPerDay) with
          | .error e => .error e
          | .ok true => filter_cooldown rest last_contact_dates cooldown_days now
          | .ok false =>
              (filter_cooldown rest last_contact_dates cooldown_days now).map (p :: ·)

/-! ## EmailEnricher.get_company_size  (src/agents/email_enricher.py 42-111) -/

/-- The Hunter companies/find reply consumed by `get_company_size`: a non-200
status, a raised exception, or a parsed body.  The `ok` fields hold the local
values the Python code extracts (`metrics.get("employees")`,
`company_data.get("industry", "")`, `company_data.get("sector", "")`,
`company_data.get("description", "")`), with `none` for a null value and the
`.get` defaults already applied for missing keys. -/
inductive CompanyResponse where
  | httpError (code : Int)
  | exn (msg : String)
  | ok (employees industry sector description : Option String)
deriving Repr, DecidableEq

/-- The dict `get_company_size` returns. -/
structure SizeInfo where
  employee_range : Option String
  is_large_company : Bool
  industry : Option String
  description : Option String
deriving Repr, DecidableEq

/-- The LARGE_COMPANY_RANGES set literal of `get_company_size`. -/
def LARGE_COMPANY_RANGES : List String :=
  ["501-1K", "1K-5K", "5K-10K", "10K-50K", "50K-100K", "100K+",
   "501-1000", "1001-5000", "5001-10000", "10001+"]

/-- Python `industry or sector or None`: the first truthy value, else null. -/
def pyFirstTruthy (a b : Option String) : Option String :=
  if pyTruthy a then a else if pyTruthy b then b else none

/-- `get_company_size(domain)` evaluated against a Hunter reply: a falsy
domain or a failed call yields the no-data dict; otherwise `is_large` is the
membership test `employee_range in LARGE_COMPANY_RANGES`. -/
def get_company_size (domain : Option String) (resp : CompanyResponse) : SizeInfo :=
  if pyTruthy domain = false then
    { employee_range := none, is_large_company := false,
      industry := none, description := none }
  else
    match resp with
    | .httpError _ =>
      { employee_range := none, is_large_company := false,
        industry := none, description := none }
    | .exn _ =>
      { employee_range := none, is_large_company := false,
        industry := none, description := none }
    | .ok employees industry sector description =>
      { employee_range := employees,
        is_large_company :=
          match employees with
          | some r => LARGE_COMPANY_RANGES.contains r
          | none => false,
        industry := pyFirstTruthy industry sector,
        description := description }

/-- The spec's name for the large-company decision: a pure function of the
employee-range token, true exactly on the fixed set of large tokens
(`None in LARGE_COMPANY_RANGES` is false in Python). -/
def classify_employee_range (range_token : Option String) : Bool :=
  match range_token with
  | some r => LARGE_COMPANY_RANGES.contains r
  | none => false

/-! ## EmailEnricher.is_b2c_company  (src/agents/email_enricher.py 113-158) -/

/-- The dict `is_b2c_company` returns. -/
structure B2CResult where
  is_b2c : Bool
  reason : String
deriving Repr, DecidableEq

/-- `is_b2c_company(company_name, industry, description)` evaluated against
the Claude collaborator's reply (`Except.error` for a raised exception whose
message is the payload, `Except.ok` for the reply text).  With neither
industry nor description truthy the call short-circuits before contacting the
collaborator; on reply text the decision is
`"B2C" in response.strip().upper()`. -/
def is_b2c_company (company_name industry description : Option String)
    (claudeReply : Except String String) : B2CResult :=
  if !pyTruthy industry && !pyTruthy description then
    { is_b2c := false, reason := "No data available" }
  else
    match claudeReply with
    | .ok text =>
      { is_b2c := pyInStr "B2C" (pyUpper (pyStrip text)),
        reason := "AI classification" }
    | .error e =>
      { is_b2c := false, reason := "Error: " ++ e }

/-! ## EmailEnricher.verify_email  (src/agents/email_enricher.py 210-247) -/

/-- The Hunter email-verifier reply consumed by `verify_email`: a non-200
status, a raised exception, or a parsed body whose `ok` fields hold
`result.get("status")`, `result.get("score")` and `result.get("result")`
before defaulting (`none` for a missing key or null). -/
inductive VerifyResponse where
  | httpError (code : Int)
  | exn (msg : String)
  | ok (status : Option String) (score : Option Int) (result : Option String)
deriving Repr, DecidableEq

/-- The dict `verify_email` returns; `vresult` is the extra `result` key the
success path adds (absent, `none`, on the failure paths). -/
structure Verification where
  status : String
  score : Int
  verified : Bool
  vresult : Option String
deriving Repr, DecidableEq

/-- `verify_email(email)` evaluated against a Hunter reply: a falsy email,
a non-200 status or an exception yield an unverified result with score 0;
otherwise `verified = (status == "valid") or (status == "accept_all" and
score >= 80)`. -/
def verify_email (email : Option String) (resp : VerifyResponse) : Verification :=
  if pyTruthy email = false then
    { status := "invalid", score := 0, verified := false, vresult := none }
  else
    match resp with
    | .httpError _ =>
      { status := "unknown", score := 0, verified := false, vresult := none }
    | .exn _ =>
      { status := "unknown", score := 0, verified := false, vresult := none }
    | .ok status score result =>
      let st := status.getD "unknown"
      let sc := score.getD 0
      { status := st, score := sc,
        verified := st == "valid" || (st == "accept_all" && decide (sc ≥ 80)),
        vresult := some (result.getD "unknown") }

/-! ## The per-lead enrichment step of main  (src/millemail_pipeline.py 242-288) -/

/-- The dict `find_decision_maker` returns on success: every key is present,
and a value may still be null (Hunter's `value`, `first_name`, `last_name`,
`position` fields can be null). -/
structure Contact where
  first_name : Option String := none
  last_name : Option String := none
  email : Option String := none
  title : Option String := none
  confidence : Option Int := none
deriving Repr, DecidableEq

/-- The collaborator replies one iteration of the enrichment loop consumes:
the resolved domain (`find_company_domain`), the Hunter company lookup for
`get_company_size`, the Claude reply for `is_b2c_company`, the
`find_decision_maker` result, and the Hunter reply for `verify_email`. -/
structure Collaborators where
  domainLookup : Option String
  companyResp : CompanyResponse
  claudeReply : Except String String
  contact : Option Contact
  verifyResp : VerifyResponse

/-- One iteration of the enrichment loop of `main`: resolve the domain, look
up company size, drop B2C companies, find a decision maker, verify the email,
and return the enriched lead — `none` when any gate skips the lead. -/
def enrich_step (lead : Lead) (c : Collaborators) : Option Lead :=
  if pyTruthy c.domainLookup = false then none
  else
    let domain := c.domainLookup.getD ""
    let lead1 : Lead := { lead with company_domain := some domain }
    let size_info := get_company_size (some domain) c.companyResp
    let b2c_check :=
      is_b2c_company lead.company_name size_info.industry size_info.description
        c.claudeReply
    if b2c_check.is_b2c then none
    else
      let lead2 : Lead := { lead1 with company_type := some "b2b" }
      match c.contact with
      | none => none
      | some contact =>
        let lead3 : Lead :=
          { lead2 with
            email := contact.email
            first_name := contact.first_name
            last_name := contact.last_name
            title := contact.title }
        let verification := verify_email contact.email c.verifyResp
        if verification.verified = false then none
        else
          some { lead3 with
            verification_status := some verification.status
            verification_score := some verification.score }

/-! ## LinkedInProfileScraper.is_big_corporate
(src/agents/linkedin_profile_scraper.py 26-101, 147-152) -/

/-- The BIG_CORPORATES_FALLBACK set literal, as written in the source (the
source set literal lists "thales", "ibm" and "sap" twice; a list keeps the
same membership semantics). -/
def BIG_CORPORATES_FALLBACK : List String :=
  ["volkswagen", "coca-cola", "renault", "carrefour", "amazon", "apple",
   "google", "microsoft", "facebook", "meta", "ibm", "oracle", "sap",
   "salesforce", "auchan", "leclerc", "intermarché", "système u", "casino",
   "monoprix", "peugeot", "citroën", "nissan", "toyota", "bmw", "mercedes",
   "audi", "total", "engie", "edf", "orange", "bouygues", "vinci", "veolia",
   "lvmh", "l\x27oréal", "danone", "lactalis", "pernod ricard",
   "schneider electric", "airbus", "thales", "safran", "michelin",
   "saint-gobain", "legrand", "bnp paribas", "société générale",
   "crédit agricole", "axa", "allianz", "adidas", "nike", "puma",
   "decathlon", "fnac", "darty", "capgemini", "hewlett packard", "hpe",
   "air france", "worldline", "slack", "jll", "diageo", "thales", "ibm",
   "sap", "stripe", "servicenow", "snowflake", "uipath", "cloudera"]

/-- `is_big_corporate(company_name)`: false on a falsy name, otherwise true
when any entry of the fallback list occurs in the lower-cased name. -/
def is_big_corporate (company_name : Option String) : Bool :=
  if pyTruthy company_name = false then false
  else
    BIG_CORPORATES_FALLBACK.any
      (fun corp => pyInStr corp (pyLower (company_name.getD "")))

/-! ## CampaignManager._transform_lead  (src/agents/campaign_manager.py 99-124) -/

/-- The Smartlead record `_transform_lead` emits: exactly the keys email,
first_name, last_name, company_name and custom_fields. -/
structure SmartleadLead where
  email : String
  first_name : String
  last_name : String
  company_name : String
  custom_fields : List (String × String)
deriving Repr, DecidableEq

/-- The `custom_field_mappings` dict, in insertion order. -/
def custom_field_mappings : List (String × String) :=
  [("subject_line", "subject_line"), ("email_1", "email_1"),
   ("email_1_ps", "email_1_ps"), ("email_2", "email_2"),
   ("email_3", "email_3")]

/-- `lead.get(field)` for the five sequence fields. -/
def leadGet (lead : Lead) : String → Option String
  | "subject_line" => lead.subject_line
  | "email_1" => lead.email_1
  | "email_1_ps" => lead.email_1_ps
  | "email_2" => lead.email_2
  | "email_3" => lead.email_3
  | _ => none

/-- The loop body of `_transform_lead`: `value = lead.get(lead_field); if
value: custom_fields[smartlead_field] = value`. -/
def cfEntry (lead : Lead) (m : String × String) : Option (String × String) :=
  match leadGet lead m.1 with
  | some value => if value == "" then none else some (m.2, value)
  | none => none

/-- `_transform_lead(lead)`: the four scalar fields defaulted to the empty
string, and custom_fields holding exactly the truthy sequence fields, in
mapping order. -/
def transform_lead (lead : Lead) : SmartleadLead :=
  { email := lead.email.getD ""
    first_name := lead.first_name.getD ""
    last_name := lead.last_name.getD ""
    company_name := lead.company_name.getD ""
    custom_fields := custom_field_mappings.filterMap (cfEntry lead) }

/-! # Theorems -/

/-! ## Claim C2: deduplication drop condition -/

/-- The drop condition as the spec words it: both halves of the identity
pair present and non-empty, and the raw pair a member of S (exact,
case-sensitive matching). -/
def specDuplicate (s : List (String × String)) (p : Lead) : Bool :=
  match p.company_domain, p.email with
  | some d, some e => decide (d ≠ "" ∧ e ≠ "" ∧ (d, e) ∈ s)
  | _, _ => false

lemma isDuplicate_eq_specDuplicate (s : List (String × String)) (p : Lead) :
    isDuplicate s p = specDuplicate s p := by
  cases hd : p.company_domain <;> cases he : p.email <;>
    simp [isDuplicate, specDuplicate, pyTruthy, hd, he]
  rw [Bool.eq_iff_iff]
  simp [List.contains, List.elem_iff, and_assoc]

/-- Claim C2: filter_duplicates returns the order-preserving sublist of its
input obtained by dropping a lead exactly when both company_domain and email
are present (non-empty) and the raw pair is a member of S; a lead with a
missing or empty half is never removed. -/
theorem filter_duplicates_spec (profiles : List Lead)
    (s : List (String × String)) :
    (filter_duplicates profiles s).Sublist profiles ∧
    filter_duplicates profiles s =
      profiles.filter (fun p => !(specDuplicate s p)) ∧
    (∀ p ∈ profiles,
      (p.company_domain = none ∨ p.company_domain = some "" ∨
        p.email = none ∨ p.email = some "") →
      p ∈ filter_duplicates profiles s) := by
  refine ⟨List.filter_sublist _, ?_, ?_⟩
  · unfold filter_duplicates
    congr 1
    funext p
    rw [isDuplicate_eq_specDuplicate]
  · intro p hp hdeg
    rw [filter_duplicates, List.mem_filter]
    refine ⟨hp, ?_⟩
    have hfalse : isDuplicate s p = false := by
      rcases hdeg with h | h | h | h <;> simp [isDuplicate, pyTruthy, h]
    simp [hfalse]

/-! ## Claim C3: a second deduplication pass -/

/-- A lead carrying no identity fields at all. -/
def noIdLead : Lead := {}

/-- Claim C3 counterexample: with a lead that lacks both identity fields,
the second pass returns the lead again, not the empty list — the output's
identity pairs cannot cover a lead with a missing half. -/
theorem dedup_second_pass_not_empty :
    filter_duplicates (filter_duplicates [noIdLead] [])
        ([] ++ identityPairs (filter_duplicates [noIdLead] [])) = [noIdLead] ∧
    ([noIdLead] : List Lead) ≠ ([] : List Lead) := by
  exact ⟨rfl, by simp⟩

/-- Claim C3 (amended): when every lead surviving the first call has both
company_domain and email present, a second call with S extended by the first
output's identity pairs returns the empty list. -/
theorem filter_duplicates_second_pass_empty (leads : List Lead)
    (s : List (String × String))
    (h : ∀ p ∈ filter_duplicates leads s,
      pyTruthy p.company_domain = true ∧ pyTruthy p.email = true) :
    filter_duplicates (filter_duplicates leads s)
      (s ++ identityPairs (filter_duplicates leads s)) = [] := by
  rw [filter_duplicates, List.filter_eq_nil_iff]
  intro p hp
  rcases h p hp with ⟨hd, he⟩
  have hpair : (p.company_domain.getD "", p.email.getD "") ∈
      identityPairs (filter_duplicates leads s) := by
    rw [identityPairs, List.mem_filterMap]
    exact ⟨p, hp, by simp [identityPair, hd, he]⟩
  simp only [Bool.not_eq_true', Bool.not_eq_false]
  rw [isDuplicate, hd, he]
  simp [List.contains, List.elem_iff]
  exact Or.inr hpair

/-- Two leads with complete identity pairs, one already known. -/
def idemLeadA : Lead := { company_domain := some "a.com", email := some "x@a.com" }

/-- A second complete lead for the idempotence witness. -/
def idemLeadB : Lead := { company_domain := some "b.com", email := some "y@b.com" }

/-- Witness for claim C3's amended theorem at a concrete batch. -/
theorem filter_duplicates_second_pass_empty_witness :
    filter_duplicates
      (filter_duplicates [idemLeadA, idemLeadB] [("a.com", "x@a.com")])
      ([("a.com", "x@a.com")] ++
        identityPairs
          (filter_duplicates [idemLeadA, idemLeadB] [("a.com", "x@a.com")])) = [] :=
  filter_duplicates_second_pass_empty [idemLeadA, idemLeadB]
    [("a.com", "x@a.com")] (by decide)

/-! ## Claim C5: large-company classification -/

/-- Claim C5: the large-company decision is true exactly on the fixed token
set, false on every other token including the empty string and an absent
token, and get_company_size's is_large_company field is exactly this pure
function of its employee_range field. -/
theorem classify_employee_range_spec :
    (∀ s : String,
      classify_employee_range (some s) = true ↔ s ∈ LARGE_COMPANY_RANGES) ∧
    classify_employee_range none = false ∧
    classify_employee_range (some "") = false ∧
    (∀ (domain : Option String) (resp : CompanyResponse),
      (get_company_size domain resp).is_large_company =
        classify_employee_range (get_company_size domain resp).employee_range) := by
  refine ⟨?_, rfl, by decide, ?_⟩
  · intro s
    simp [classify_employee_range, List.contains, List.elem_iff]
  · intro domain resp
    by_cases hd : pyTruthy domain = false
    · simp [get_company_size, hd, classify_employee_range]
    · cases resp with
      | httpError code => simp [get_company_size, hd, classify_employee_range]
      | exn msg => simp [get_company_size, hd, classify_employee_range]
      | ok employees industry sector description =>
        cases employees <;> simp [get_company_size, hd, classify_employee_range]

/-! ## Claim C8: known-large-brand check -/

/-- Claim C8: is_big_corporate lower-cases the name and is true exactly when
some entry of the fixed disqualification list is a substring of it; a missing
or empty name gives false; "Groupe Carrefour France" gives true. -/
theorem is_big_corporate_spec :
    (∀ name : String, name ≠ "" →
      (is_big_corporate (some name) = true ↔
        ∃ corp ∈ BIG_CORPORATES_FALLBACK, pyInStr corp (pyLower name) = true)) ∧
    is_big_corporate none = false ∧
    is_big_corporate (some "") = false ∧
    is_big_corporate (some "Groupe Carrefour France") = true := by
  refine ⟨?_, rfl, rfl, by rfl⟩
  intro name hname
  simp [is_big_corporate, pyTruthy, hname, List.any_eq_true]

/-! ## Claim C1: cooldown keep/drop boundary -/

/-- A lead whose domain has a last-contact entry. -/
def boundaryLead : Lead := { company_domain := some "a.com" }

/-- A last-contact map placing a.com's contact at instant 0, with an
explicit UTC offset. -/
def boundaryContactMap : String → Option IsoTimestamp :=
  fun d => if d == "a.com" then some (IsoTimestamp.utcOffset 0) else none

/-- Claim C1 counterexample: with now exactly cooldown_days after the last
contact (elapsed = 90 days to the second), filter_cooldown keeps the lead,
while the claim says a contact made exactly cooldown_days ago is dropped. -/
theorem cooldown_exact_boundary_kept :
    (7776000 : Int) - 0 = 90 * secondsPerDay ∧
    filter_cooldown [boundaryLead] boundaryContactMap 90 7776000 =
      Except.ok [boundaryLead] := by
  exact ⟨by decide, rfl⟩

/-- Claim C1 (amended): for a lead whose domain is present and has an entry
that parses to an aware instant t, filter_cooldown keeps the lead if and
only if the elapsed time now - t is at least cooldown_days (elapsed ≥
threshold keeps; elapsed < threshold drops; the exact boundary is kept). -/
theorem filter_cooldown_keep_iff (p : Lead) (m : String → Option IsoTimestamp)
    (ts : IsoTimestamp) (c now t : Int)
    (hd : pyTruthy p.company_domain = true)
    (hm : m (p.company_domain.getD "") = some ts)
    (hp : parse_last_contact ts = Except.ok (PyDateTime.aware t)) :
    filter_cooldown [p] m c now =
      Except.ok (if c * secondsPerDay ≤ now - t then [p] else []) := by
  cases hb : decide (t > now - c * secondsPerDay) with
  | false =>
    have hle : c * secondsPerDay ≤ now - t := by
      have := of_decide_eq_false hb
      omega
    simp [filter_cooldown, hd, hm, hp, pyGtAware, hb, hle, Except.map]
  | true =>
    have hgt : ¬ c * secondsPerDay ≤ now - t := by
      have := of_decide_eq_true hb
      omega
    simp [filter_cooldown, hd, hm, hp, pyGtAware, hb, hgt]

/-- A lead one second past the boundary, for the claim C1 witness. -/
def keepWitLead : Lead := { company_domain := some "b.com" }

/-- The last-contact map for the claim C1 witness, using a trailing-Z
timestamp at instant 0. -/
def keepWitMap : String → Option IsoTimestamp :=
  fun d => if d == "b.com" then some (IsoTimestamp.zSuffix 0) else none

/-- Witness for claim C1's amended theorem at a concrete lead, map and
clock. -/
theorem filter_cooldown_keep_iff_witness :
    filter_cooldown [keepWitLead] keepWitMap 90 7776001 =
      Except.ok
        (if (90 : Int) * secondsPerDay ≤ 7776001 - 0 then [keepWitLead] else []) :=
  filter_cooldown_keep_iff keepWitLead keepWitMap (IsoTimestamp.zSuffix 0)
    90 7776001 0 (by decide) rfl rfl

/-! ## Claim C4: timestamp-format invariance -/

lemma parse_last_contact_replaceZ (ts : IsoTimestamp) :
    parse_last_contact (replaceZ ts) = parse_last_contact ts := by
  cases ts <;> rfl

/-- Claim C4: a trailing-Z timestamp parses, without raising, to the same
aware instant as its explicit-UTC-offset equivalent (never to a naive
value), and rewriting any subset of a last-contact map's timestamps from
trailing-Z form to explicit-offset form leaves every filter_cooldown
decision unchanged. -/
theorem filter_cooldown_format_invariance :
    (∀ t : Int,
      parse_last_contact (IsoTimestamp.zSuffix t) =
        Except.ok (PyDateTime.aware t) ∧
      parse_last_contact (IsoTimestamp.zSuffix t) =
        parse_last_contact (IsoTimestamp.utcOffset t)) ∧
    (∀ (profiles : List Lead) (m : String → Option IsoTimestamp) (c now : Int),
      filter_cooldown profiles (fun d => (m d).map replaceZ) c now =
        filter_cooldown profiles m c now) := by
  constructor
  · intro t
    exact ⟨rfl, rfl⟩
  · intro profiles m c now
    induction profiles with
    | nil => rfl
    | cons p rest ih =>
      by_cases hd : pyTruthy p.company_domain = false
      · simp [filter_cooldown, hd, ih]
      · cases hm : m (p.company_domain.getD "") with
        | none => simp [filter_cooldown, hd, hm, ih]
        | some ts =>
          cases hp : parse_last_contact ts with
          | error e =>
            simp [filter_cooldown, hd, hm, parse_last_contact_replaceZ, hp]
          | ok dt =>
            cases hg : pyGtAware dt (now - c * secondsPerDay) with
            | error e =>
              simp [filter_cooldown, hd, hm, parse_last_contact_replaceZ, hp, hg]
            | ok b =>
              cases b <;>
                simp [filter_cooldown, hd, hm, parse_last_contact_replaceZ,
                  hp, hg, ih]

/-! ## Claim C9: cooldown never raises -/

/-- A lead whose domain has a naive last-contact entry. -/
def naiveLead : Lead := { company_domain := some "n.com" }

/-- A last-contact map whose value is a well-formed naive ISO timestamp
(no timezone designator), as `insert_prospects` itself writes with
`datetime.now().isoformat()`. -/
def naiveContactMap : String → Option IsoTimestamp :=
  fun d => if d == "n.com" then some (IsoTimestamp.naive 0) else none

/-- Claim C9 evidence: on a naive last-contact timestamp the comparison
`last_contact_dt > cooldown_threshold` mixes a naive and an aware datetime
and filter_cooldown propagates a TypeError instead of returning a filtered
list. -/
theorem filter_cooldown_naive_raises :
    filter_cooldown [naiveLead] naiveContactMap 90 7776000 =
      Except.error
        "TypeError: cannot compare offset-naive and offset-aware datetimes" := by
  rfl

/-! ## Claim C6: B2C classifier fail-open behaviour -/

/-- Claim C6 counterexample: on the reply "b2c" the classifier answers
is_b2c = true although the literal token "B2C" does not appear in the
collaborator's reply — the code tests the upper-cased reply. -/
theorem is_b2c_literal_token_cex :
    (is_b2c_company (some "Acme") (some "Retail") none
        (Except.ok "b2c")).is_b2c = true ∧
    pyInStr "B2C" "b2c" = false := by
  exact ⟨rfl, rfl⟩

/-- Claim C6 (amended): with neither industry nor description truthy the
classifier short-circuits (its result does not depend on the collaborator)
to is_b2c = false with reason "No data available"; a collaborator failure
yields is_b2c = false with the failure recorded in the reason; otherwise the
decision is exactly whether "B2C" appears in the whitespace-trimmed,
upper-cased reply — so no failure mode returns is_b2c = true. -/
theorem is_b2c_company_spec :
    (∀ (name ind desc : Option String) (reply : Except String String),
      pyTruthy ind = false → pyTruthy desc = false →
      is_b2c_company name ind desc reply =
        { is_b2c := false, reason := "No data available" }) ∧
    (∀ (name ind desc : Option String) (e : String),
      (is_b2c_company name ind desc (Except.error e)).is_b2c = false) ∧
    (∀ (name ind desc : Option String) (e : String),
      (pyTruthy ind || pyTruthy desc) = true →
      is_b2c_company name ind desc (Except.error e) =
        { is_b2c := false, reason := "Error: " ++ e }) ∧
    (∀ (name ind desc : Option String) (text : String),
      (pyTruthy ind || pyTruthy desc) = true →
      (is_b2c_company name ind desc (Except.ok text)).is_b2c =
        pyInStr "B2C" (pyUpper (pyStrip text))) := by
  refine ⟨?_, ?_, ?_, ?_⟩
  · intro name ind desc reply hi hd
    simp [is_b2c_company, hi, hd]
  · intro name ind desc e
    by_cases h : (!pyTruthy ind && !pyTruthy desc) = true
    · simp [is_b2c_company, h]
    · simp [is_b2c_company, h]
  · intro name ind desc e h
    have hc : (!pyTruthy ind && !pyTruthy desc) = false := by
      cases hi : pyTruthy ind <;> cases hdc : pyTruthy desc <;>
        simp_all
    simp [is_b2c_company, hc]
  · intro name ind desc text h
    have hc : (!pyTruthy ind && !pyTruthy desc) = false := by
      cases hi : pyTruthy ind <;> cases hdc : pyTruthy desc <;>
        simp_all
    simp [is_b2c_company, hc]

/-! ## Claim C7: campaign payload omission rule -/

lemma cfEntry_eq_some (lead : Lead) (x f v : String) :
    cfEntry lead (x, x) = some (f, v) ↔
      f = x ∧ leadGet lead x = some v ∧ v ≠ "" := by
  unfold cfEntry
  cases h : leadGet lead x with
  | none => simp
  | some w =>
    by_cases hw : w = ""
    · subst hw
      constructor
      · intro hcontra
        simp at hcontra
      · rintro ⟨_, hveq, hne⟩
        injection hveq with hv
        exact absurd hv.symm hne
    · have hbw : (w == "") = false := by simp [hw]
      simp only [hbw, Bool.false_eq_true, if_false, Option.some.injEq,
        Prod.mk.injEq]
      constructor
      · rintro ⟨rfl, rfl⟩
        exact ⟨rfl, rfl, hw⟩
      · rintro ⟨rfl, hveq, _⟩
        exact ⟨rfl, hveq⟩

/-- The lead of the spec's payload-omission scenario: email_2 empty, the
other four sequence fields populated. -/
def payloadScenarioLead : Lead :=
  { email := some "x@acme.com", first_name := some "Jo",
    last_name := some "Doe", company_name := some "Acme",
    subject_line := some "S", email_1 := some "E1",
    email_1_ps := some "PS", email_2 := some "", email_3 := some "E3" }

/-- Claim C7: custom_fields holds a (field, value) pair exactly when the
field is one of the five sequence fields and its source value is truthy;
in the scenario with email_2 = "" and the other four populated, email_2 is
absent from custom_fields and the other four are present in order. -/
theorem transform_lead_payload_spec (lead : Lead) :
    (∀ f v, (f, v) ∈ (transform_lead lead).custom_fields ↔
      (f ∈ (["subject_line", "email_1", "email_1_ps", "email_2", "email_3"] :
          List String) ∧
        leadGet lead f = some v ∧ v ≠ "")) ∧
    (transform_lead payloadScenarioLead).custom_fields =
      [("subject_line", "S"), ("email_1", "E1"), ("email_1_ps", "PS"),
        ("email_3", "E3")] := by
  refine ⟨?_, rfl⟩
  intro f v
  have hcf : (transform_lead lead).custom_fields =
      custom_field_mappings.filterMap (cfEntry lead) := rfl
  rw [hcf, List.mem_filterMap]
  constructor
  · rintro ⟨⟨lf, sf⟩, hmem, he⟩
    simp only [custom_field_mappings, List.mem_cons, List.not_mem_nil,
      or_false, Prod.mk.injEq] at hmem
    rcases hmem with ⟨rfl, rfl⟩ | ⟨rfl, rfl⟩ | ⟨rfl, rfl⟩ | ⟨rfl, rfl⟩ |
        ⟨rfl, rfl⟩ <;>
      · rw [cfEntry_eq_some] at he
        rcases he with ⟨rfl, h1, h2⟩
        exact ⟨by simp, h1, h2⟩
  · rintro ⟨hf, hv, hne⟩
    simp only [List.mem_cons, List.not_mem_nil, or_false] at hf
    rcases hf with rfl | rfl | rfl | rfl | rfl
    · exact ⟨("subject_line", "subject_line"), by simp [custom_field_mappings],
        (cfEntry_eq_some lead "subject_line" "subject_line" v).mpr ⟨rfl, hv, hne⟩⟩
    · exact ⟨("email_1", "email_1"), by simp [custom_field_mappings],
        (cfEntry_eq_some lead "email_1" "email_1" v).mpr ⟨rfl, hv, hne⟩⟩
    · exact ⟨("email_1_ps", "email_1_ps"), by simp [custom_field_mappings],
        (cfEntry_eq_some lead "email_1_ps" "email_1_ps" v).mpr ⟨rfl, hv, hne⟩⟩
    · exact ⟨("email_2", "email_2"), by simp [custom_field_mappings],
        (cfEntry_eq_some lead "email_2" "email_2" v).mpr ⟨rfl, hv, hne⟩⟩
    · exact ⟨("email_3", "email_3"), by simp [custom_field_mappings],
        (cfEntry_eq_some lead "email_3" "email_3" v).mpr ⟨rfl, hv, hne⟩⟩

/-! ## Claim C10: email verification and the enrichment gate -/

/-- Claim C10: verified is always exactly (status == "valid") or
(status == "accept_all" and score >= 80); a falsy email input yields the
invalid result with score 0; a non-success response or an exception yields
verified = false with score 0; and whenever the enrichment step accepts a
lead, the verification it ran on the found contact's email returned
verified = true. -/
theorem verify_email_spec :
    (∀ (email : Option String) (resp : VerifyResponse),
      (verify_email email resp).verified =
        ((verify_email email resp).status == "valid" ||
          ((verify_email email resp).status == "accept_all" &&
            decide ((verify_email email resp).score ≥ 80)))) ∧
    (∀ resp, verify_email none resp =
      { status := "invalid", score := 0, verified := false, vresult := none }) ∧
    (∀ resp, verify_email (some "") resp =
      { status := "invalid", score := 0, verified := false, vresult := none }) ∧
    (∀ (email : Option String) (code : Int),
      (verify_email email (VerifyResponse.httpError code)).verified = false ∧
      (verify_email email (VerifyResponse.httpError code)).score = 0) ∧
    (∀ (email : Option String) (msg : String),
      (verify_email email (VerifyResponse.exn msg)).verified = false ∧
      (verify_email email (VerifyResponse.exn msg)).score = 0) ∧
    (∀ (lead out : Lead) (c : Collaborators),
      enrich_step lead c = some out →
      ∃ contact, c.contact = some contact ∧
        (verify_email contact.email c.verifyResp).verified = true) := by
  refine ⟨?_, ?_, ?_, ?_, ?_, ?_⟩
  · intro email resp
    by_cases he : pyTruthy email = false
    · simp [verify_email, he]
    · cases resp with
      | httpError code => simp [verify_email, he]
      | exn msg => simp [verify_email, he]
      | ok status score result => simp [verify_email, he]
  · intro resp
    rfl
  · intro resp
    rfl
  · intro email code
    by_cases he : pyTruthy email = false
    · simp [verify_email, he]
    · simp [verify_email, he]
  · intro email msg
    by_cases he : pyTruthy email = false
    · simp [verify_email, he]
    · simp [verify_email, he]
  · intro lead out c h
    simp only [enrich_step] at h
    by_cases hd : pyTruthy c.domainLookup = false
    · simp [hd] at h
    · simp only [if_neg hd] at h
      by_cases hb : (is_b2c_company lead.company_name
          (get_company_size (some (c.domainLookup.getD "")) c.companyResp).industry
          (get_company_size (some (c.domainLookup.getD "")) c.companyResp).description
          c.claudeReply).is_b2c
      · simp [hb] at h
      · simp only [hb, if_false] at h
        cases hc : c.contact with
        | none =>
          rw [hc] at h
          simp at h
        | some contact =>
          rw [hc] at h
          by_cases hv : (verify_email contact.email c.verifyResp).verified = false
          · simp [hv] at h
          · exact ⟨contact, rfl, by simpa using hv⟩
